import Mathlib

/-!
Verification of the search-and-synthesis pipeline of the drug-claims
retrieval system (shraw111/retriveal).

The Python sources under `src/` are embedded shallowly: pure functions
become Lean functions, network/LLM calls become explicit oracles
(functions supplied as arguments, returning `Except Unit _` when the
underlying call can raise), Python floats become `ℚ`, Python `int`
counters become `Int`, dicts become association lists, and exceptions
caught by `try/except` blocks become explicit `match`es on the oracle
outcome.  Each definition cites the source location it is translated
from.
-/

namespace Retrieval

/-! ### Small Python-semantics helpers -/

/-- Python truthiness of an `Optional[str]`: `None` and `""` are falsy. -/
def truthyOpt : Option String → Bool
  | none => false
  | some s => !(s == "")

/-- Python `str.title()` on ASCII text: the first letter of every
alphabetic run is upper-cased, the rest of the run lower-cased. -/
def pyTitleAux : Bool → List Char → List Char
  | _, [] => []
  | prevAlpha, c :: cs =>
    if c.isAlpha then
      (if prevAlpha then c.toLower else c.toUpper) :: pyTitleAux true cs
    else
      c :: pyTitleAux false cs

def pyTitle (s : String) : String := String.mk (pyTitleAux false s.data)

/-- `needle` is a prefix of `hay` (used to implement Python substring tests). -/
def leadsWith : List Char → List Char → Bool
  | [], _ => true
  | _ :: _, [] => false
  | a :: as, b :: bs => a == b && leadsWith as bs

/-- Python `needle in hay` for strings: contiguous substring occurrence. -/
def occursIn (needle : List Char) : List Char → Bool
  | [] => needle.isEmpty
  | b :: bs => leadsWith needle (b :: bs) || occursIn needle bs

/-- Python `dict.get(k)` on an association list (dict keys are unique,
so first-match lookup is faithful). -/
def dictGet (m : List (String × String)) (k : String) : Option String :=
  (m.find? (fun kv => kv.1 == k)).map (·.2)

/-- Python `str.strip()` (ASCII whitespace), structurally on the char
list. -/
def pyStrip (s : String) : String :=
  String.mk (((s.data.dropWhile Char.isWhitespace).reverse.dropWhile
    Char.isWhitespace).reverse)

/-- Python slicing `s[:n]` (by code point). -/
def strTake (s : String) (n : Nat) : String := String.mk (s.data.take n)

/-- Python `str.lower()` on ASCII text. -/
def strToLower (s : String) : String := String.mk (s.data.map Char.toLower)

/-- Python `sep.join(xs)`. -/
def joinSep (sep : String) : List String -> String
  | [] => ""
  | [x] => x
  | x :: xs => x ++ sep ++ joinSep sep xs

/-- Python `", ".join(xs)`. -/
def joinComma (xs : List String) : String := joinSep ", " xs

/-! ### Data model, from `src/models/api_responses.py` and `src/models/claim.py`.
Fields never read by the verified code paths are elided. -/

/-- `api_responses.FDALabelResponse` (lines 9-19). -/
structure FDALabelResponse where
  brand_name : Option String
  generic_name : Option String
  indications_and_usage : List String
  clinical_studies : List String
  dosage_and_administration : List String
  adverse_reactions : List String
  effective_time : Option String
deriving DecidableEq, Inhabited

/-- `api_responses.PubMedArticleMetadata` (lines 22-34). -/
structure PubMedArticleMetadata where
  pmid : String
  title : String
  abstract : Option String
  authors : List String
  journal : Option String
  pub_year : Option Int
  doi : Option String
  pmcid : Option String
deriving DecidableEq, Inhabited

/-- `api_responses.PubMedFullTextArticle` (lines 37-52); `sections` is the
Python `Dict[str, str]` as an association list. -/
structure PubMedFullTextArticle where
  pmcid : String
  pmid : Option String
  title : String
  abstract : Option String
  full_text : String
  sections : List (String × String)
  authors : List String
  journal : Option String
  doi : Option String
deriving DecidableEq, Inhabited

/-- `api_responses.ClinicalTrialResult` (lines 55-72), the fields read by
the generator's trial cross-reference. -/
structure ClinicalTrialResult where
  nct_id : String
  official_title : String
  brief_title : Option String
  url : String
deriving DecidableEq, Inhabited

/-- `api_responses.SearchResults` (lines 75-87); the tracking counters are
Python ints, embedded as `Int`. -/
structure SearchResults where
  fda_label : Option FDALabelResponse
  pubmed_articles : List PubMedArticleMetadata
  pubmed_full_text : List PubMedFullTextArticle
  clinical_trials : List ClinicalTrialResult
  pubmed_total_found : Int
  pubmed_full_text_available : Int
  pubmed_abstract_only : Int
  clinical_trials_found : Int
deriving DecidableEq, Inhabited

/-- `claim.SourceType` (lines 10-16). -/
inductive SourceType where
  | FDA_APPROVED_LABEL
  | PEER_REVIEWED_FULL_TEXT
  | PEER_REVIEWED_ABSTRACT
  | CLINICAL_TRIAL_REGISTRY
  | FDA_CLINICAL_STUDIES
deriving DecidableEq, Inhabited

/-- `claim.CitationType` (lines 19-23). -/
inductive CitationType where
  | FDA_LABEL
  | JOURNAL_ARTICLE
  | TRIAL_REGISTRY
deriving DecidableEq, Inhabited

/-- `claim.Citation` (lines 26-51). -/
structure Citation where
  primary : Bool
  citation_type : CitationType
  text : Option String := none
  authors : Option String := none
  title : Option String := none
  journal : Option String := none
  pmcid : Option String := none
  doi : Option String := none
  pmc_url : Option String := none
  full_text_available : Bool := false
  «section» : Option String := none
  nct : Option String := none
  url : Option String := none
deriving DecidableEq, Inhabited

/-- `claim.Claim` (lines 54-70); `numerical_data` is the open JSON map as
an association list (values stringified, `none` = JSON null). -/
structure Claim where
  claim_id : Nat
  claim_type : String
  claim_text : String
  substantiation : String
  source_type : SourceType
  citations : List Citation
  confidence : String
  full_text_used : Bool
  extracted_from : String
  numerical_data : List (String × Option String) := []
deriving DecidableEq, Inhabited

/-- The dict built per excluded article by
`ranker.get_excluded_articles` (lines 183-192); it is converted to the
pydantic `claim.ArticleWithoutFullText` model (which requires `journal`
to be a string — conversion with `journal = None` raises). -/
structure ExcludedArticleEntry where
  pmid : String
  title : String
  journal : Option String
  year : Option Int
  authors : Option String
  abstract : Option String
  note : String
  doi : Option String
deriving DecidableEq, Inhabited

/-- `claim.SearchSummary` (lines 85-95). -/
structure SearchSummary where
  user_query : String
  sources_searched : List String
  results_found : List (String × Int)
  full_text_strategy : String
  search_time_seconds : ℚ
deriving DecidableEq, Inhabited

/-- The `additional_context` dict built by
`claims_generator.generate_claims` (lines 124-133). -/
structure AdditionalContext where
  articles_without_full_text : List ExcludedArticleEntry
  recommendation : String
deriving DecidableEq, Inhabited

/-- `claim.ClaimsOutput` (lines 98-105). -/
structure ClaimsOutput where
  search_summary : SearchSummary
  claims : List Claim
  additional_context : AdditionalContext
deriving DecidableEq, Inhabited

/-- `intent.OutputRequirements` (lines 16-22); pydantic bounds
`1 ≤ claim_count ≤ 20` are stated as hypotheses where needed. -/
structure OutputRequirements where
  claim_count : Nat
  include_substantiation : Bool
  format_type : String
  include_safety : Bool
  include_dosing : Bool
deriving DecidableEq, Inhabited

/-- `intent.DrugIdentification` (lines 8-13). -/
structure DrugIdentification where
  brand_name : Option String
  generic_name : Option String
  synonyms : List String
  search_terms : List String
deriving DecidableEq, Inhabited

/-- `intent.UserIntent` (lines 25-32). -/
structure UserIntent where
  original_query : String
  drug : DrugIdentification
  claim_type : String
  indication : Option String
  population : Option String
  output_requirements : OutputRequirements
deriving DecidableEq, Inhabited

/-! ### Number-token extraction, from `src/utils/validators.py`
`ClaimValidator._extract_numbers` (lines 63-80) runs five `re.findall`
calls (IGNORECASE) over the text.  The patterns are embedded as a small
regular-expression engine with Python's backtracking order (greedy
quantifiers try the longest repetition first, `?` tries the present
branch first, alternatives left to right), so `findall` returns exactly
the spans CPython's `re` returns.  `\b` is a word boundary over
`[A-Za-z0-9_]`; all five patterns consume at least one character. -/

def isWordChar (c : Char) : Bool := c.isAlphanum || c == '_'

/-- Regular-expression fragments needed by the five patterns.  General
starred groups are specialised: `digitRange lo hi` is `\d{lo,hi}`,
`digits1` is `\d+`, `spaces0` is `\s*`, `commaGroups` is `(?:,\d{3})*`. -/
inductive RE where
  | eps
  | tok (p : Char → Bool)
  | seq (a b : RE)
  | opt (a : RE)
  | wb
  | digitRange (lo hi : Nat)
  | digits1
  | spaces0
  | commaGroups

/-- Consume exactly `n` chars satisfying `p`, tracking the previous char
(needed for later `\b` tests). -/
def eatClass (p : Char → Bool) : Nat → Option Char → List Char →
    Option (Option Char × List Char)
  | 0, prev, rest => some (prev, rest)
  | _ + 1, _, [] => none
  | n + 1, _, c :: rs => if p c then eatClass p n (some c) rs else none

/-- Length of the maximal run of chars satisfying `p`. -/
def runLen (p : Char → Bool) (l : List Char) : Nat := (l.takeWhile p).length

/-- Number of `,ddd` groups a maximal greedy `(?:,\d{3})*` would take. -/
def maxCommaGroups : List Char → Nat
  | ',' :: a :: b :: c :: rest =>
    if a.isDigit && b.isDigit && c.isDigit then maxCommaGroups rest + 1 else 0
  | _ => 0

/-- Consume exactly `n` `,ddd` groups. -/
def eatCommaGroups : Nat → Option Char → List Char →
    Option (Option Char × List Char)
  | 0, prev, rest => some (prev, rest)
  | n + 1, _, ',' :: a :: b :: c :: rest =>
    if a.isDigit && b.isDigit && c.isDigit then
      eatCommaGroups n (some c) rest
    else none
  | _ + 1, _, _ => none

/-- Backtracking over a counted repetition: try `n` copies first, then
`n - 1`, …, stopping below `lo` (Python's greedy order). -/
def tryCounts (lo : Nat) (eat : Nat → Option (Option Char × List Char))
    (k : Option Char → List Char → Option α) : Nat → Option α
  | 0 =>
    if lo = 0 then
      match eat 0 with
      | some (p, r) => k p r
      | none => none
    else none
  | n + 1 =>
    if n + 1 < lo then none
    else
      match (match eat (n + 1) with
             | some (p, r) => k p r
             | none => none) with
      | some res => some res
      | none => tryCounts lo eat k n

/-- Word boundary between `prev` and the head of `rest` (out of bounds
counts as a non-word char). -/
def atBoundary (prev : Option Char) (rest : List Char) : Bool :=
  (match prev with | some c => isWordChar c | none => false)
    != (match rest with | c :: _ => isWordChar c | [] => false)

/-- CPS matcher: runs `re` at the current position, calling `k` with the
updated previous-char/remaining-input for every way of matching, in
Python's backtracking order; returns the first success. -/
def mrun : RE → Option Char → List Char →
    (Option Char → List Char → Option α) → Option α
  | .eps, prev, rest, k => k prev rest
  | .tok _, _, [], _ => none
  | .tok p, _, c :: rs, k => if p c then k (some c) rs else none
  | .seq a b, prev, rest, k => mrun a prev rest (fun p r => mrun b p r k)
  | .opt a, prev, rest, k =>
    match mrun a prev rest k with
    | some res => some res
    | none => k prev rest
  | .wb, prev, rest, k => if atBoundary prev rest then k prev rest else none
  | .digitRange lo hi, prev, rest, k =>
    tryCounts lo (fun n => eatClass Char.isDigit n prev rest) k
      (min hi (runLen Char.isDigit rest))
  | .digits1, prev, rest, k =>
    tryCounts 1 (fun n => eatClass Char.isDigit n prev rest) k
      (runLen Char.isDigit rest)
  | .spaces0, prev, rest, k =>
    tryCounts 0 (fun n => eatClass Char.isWhitespace n prev rest) k
      (runLen Char.isWhitespace rest)
  | .commaGroups, prev, rest, k =>
    tryCounts 0 (fun n => eatCommaGroups n prev rest) k (maxCommaGroups rest)

/-- `re.findall` scan: at each position try the pattern; on a (non-empty)
match emit the span and resume after it, else advance one char. -/
def findallAux (pat : RE) : Nat → Option Char → List Char → List (List Char)
  | 0, _, _ => []
  | fuel + 1, prev, rest =>
    match mrun pat prev rest (fun p r => some (p, r)) with
    | some (p2, rest2) =>
      if rest2.length < rest.length then
        rest.take (rest.length - rest2.length) ::
          findallAux pat fuel p2 rest2
      else
        match rest with
        | [] => []
        | c :: rs => findallAux pat fuel (some c) rs
    | none =>
      match rest with
      | [] => []
      | c :: rs => findallAux pat fuel (some c) rs

def findall (pat : RE) (s : String) : List String :=
  (findallAux pat (s.data.length + 1) none s.data).map String.mk

def chTok (c : Char) : RE := .tok (fun d => d == c)

/-- Case-insensitive letter (the patterns run with `re.IGNORECASE`). -/
def ciTok (lower upper : Char) : RE := .tok (fun d => d == lower || d == upper)

def seqs : List RE → RE
  | [] => .eps
  | [r] => r
  | r :: rs => .seq r (seqs rs)

/-- `\b\d{1,3}(?:,\d{3})*(?:\.\d+)?%?\b` (validators.py line 68). -/
def pat1 : RE :=
  seqs [.wb, .digitRange 1 3, .commaGroups,
        .opt (.seq (chTok '.') .digits1), .opt (chTok '%'), .wb]

/-- `\b\d+\.\d+%?\b` (line 69). -/
def pat2 : RE :=
  seqs [.wb, .digits1, chTok '.', .digits1, .opt (chTok '%'), .wb]

/-- `\bN\s*=\s*\d+(?:,\d{3})*\b` (line 70). -/
def pat3 : RE :=
  seqs [.wb, ciTok 'n' 'N', .spaces0, chTok '=', .spaces0, .digits1,
        .commaGroups, .wb]

/-- `\bp\s*[<>=]\s*0\.\d+\b` (line 71). -/
def pat4 : RE :=
  seqs [.wb, ciTok 'p' 'P', .spaces0,
        .tok (fun c => c == '<' || c == '>' || c == '='), .spaces0,
        chTok '0', chTok '.', .digits1, .wb]

/-- `\bCI:?\s*\d+%?-\d+%?\b` (line 72). -/
def pat5 : RE :=
  seqs [.wb, ciTok 'c' 'C', ciTok 'i' 'I', .opt (chTok ':'), .spaces0,
        .digits1, .opt (chTok '%'), chTok '-', .digits1, .opt (chTok '%'), .wb]

/-- `ClaimValidator._extract_numbers` (validators.py lines 63-80): the
five `findall` results concatenated in pattern order, each token
`strip()`ped. -/
def extract_numbers (text : String) : List String :=
  (([pat1, pat2, pat3, pat4, pat5].map (fun p => findall p text)).flatten).map
    pyStrip

/-! ### `ClaimValidator`, from `src/utils/validators.py` -/

/-- `number.replace(" ", "").replace(",", "").lower()`
(validators.py lines 86, 89). -/
def clean_number (s : String) : String :=
  strToLower (String.mk (s.data.filter (fun c => !(c == ' ' || c == ','))))

/-- `ClaimValidator._fuzzy_number_match` (validators.py lines 82-96):
equality of the cleaned tokens, or substring containment in either
direction. -/
def fuzzy_number_match (number : String) (number_list : List String) : Bool :=
  number_list.any (fun source_num =>
    let nc := clean_number number
    let sc := clean_number source_num
    nc == sc || occursIn nc.data sc.data || occursIn sc.data nc.data)

def numIssue (n : String) : String :=
  "Number \x27" ++ n ++ "\x27 in claim not found in source text"

def fieldIssue (f v : String) : String :=
  "Numerical data field \x27" ++ f ++ "\x27 value \x27" ++ v ++
    "\x27 not found in source"

/-- `ClaimValidator.validate_numerical_accuracy` (validators.py lines
16-61).  `numerical_data` is the open dict, values stringified by
`str(value)` with `none` for JSON null. -/
def validate_numerical_accuracy (claim_text substantiation source_text : String)
    (numerical_data : List (String × Option String)) : Bool × List String :=
  let claim_numbers := extract_numbers (claim_text ++ " " ++ substantiation)
  let source_numbers := extract_numbers source_text
  let issues := claim_numbers.foldl (fun acc number =>
    if source_numbers.contains number then acc
    else if fuzzy_number_match number source_numbers then acc
    else acc ++ [numIssue number]) []
  let issues := numerical_data.foldl (fun acc fv =>
    match fv.2 with
    | none => acc
    | some v =>
      if fuzzy_number_match v source_numbers then acc
      else acc ++ [fieldIssue fv.1 v]) issues
  (issues.isEmpty, issues)

/-- The claim-data dict returned by the text-generation service, as read
by the generator: keys `claim_text`, `substantiation`, `numerical_data`,
`extracted_from` (`none` = key absent). -/
structure ClaimData where
  claim_text : Option String
  substantiation : Option String
  numerical_data : Option (List (String × Option String))
  extracted_from : Option String
deriving DecidableEq, Inhabited

/-- `ClaimValidator.validate_claim_completeness` (validators.py lines
98-126): required fields truthy, `claim_text` at least 20 chars,
`substantiation` at least 100 chars. -/
def validate_claim_completeness (claim_data : ClaimData) : Bool × List String :=
  let issues : List String := []
  let issues := if truthyOpt claim_data.claim_text then issues
    else issues ++ ["Missing required field: claim_text"]
  let issues := if truthyOpt claim_data.substantiation then issues
    else issues ++ ["Missing required field: substantiation"]
  let ct := claim_data.claim_text.getD ""
  let issues := if ct.length < 20 then
    issues ++ ["Claim text too short (minimum 20 characters)"] else issues
  let sub := claim_data.substantiation.getD ""
  let issues := if sub.length < 100 then
    issues ++ ["Substantiation too short (minimum 100 characters)"] else issues
  (issues.isEmpty, issues)

/-- `SearchValidator.validate_search_results` (validators.py lines
191-236), on the `SearchResults` model (the Python code receives its
`model_dump()`). -/
def validate_search_results (sr : SearchResults) : Bool × List String :=
  let has_fda := sr.fda_label.isSome
  let has_pubmed := !sr.pubmed_articles.isEmpty
  let has_trials := !sr.clinical_trials.isEmpty
  if !(has_fda || has_pubmed || has_trials) then
    (false, ["No results found from any source"])
  else
    let warnings : List String := []
    let warnings :=
      if sr.pubmed_total_found > 0 && sr.pubmed_full_text_available == 0 then
        warnings ++ ["Found " ++ toString sr.pubmed_total_found ++
          " PubMed articles but none have full text in PMC"]
      else warnings
    let warnings :=
      if sr.pubmed_full_text_available < 3 && sr.pubmed_total_found > 0 then
        warnings ++ ["Only " ++ toString sr.pubmed_full_text_available ++ "/" ++
          toString sr.pubmed_total_found ++
          " articles have full text available"]
      else warnings
    let warnings :=
      match sr.fda_label with
      | some lbl =>
        if lbl.indications_and_usage.isEmpty then
          warnings ++ ["FDA label missing indications section"]
        else warnings
      | none => warnings
    (true, warnings)

/-! ### Dependent Fetch Chain, from `src/api/pubmed.py`
Network calls and wire-format parsing are oracles.  Each embedded stage
returns `Except Unit _` so that "the error propagates to the caller" is
expressible; a stage whose `try/except` swallows every exception is a
function that always returns `.ok`.  The `@retry(..., reraise=True)`
decorators on stages 2-3 never observe an exception (the decorated
bodies catch `Exception` and return a value), so they are the identity
and are not modelled as loops. -/

/-- The payload `_parse_pmc_full_text` (pubmed.py lines 300-370) would
produce, except the `pmcid` the client stamps on (line 358). -/
structure FullTextContent where
  title : String
  abstract : Option String
  full_text : String
  sections : List (String × String)
  authors : List String
  journal : Option String
  doi : Option String
deriving DecidableEq, Inhabited

/-- Outcomes of the three kinds of E-utilities calls (an `.error` is an
exception surviving the adapter's own attempts). -/
structure PubMedNet where
  esearch : Except Unit (List String)
  efetchMeta : List String → Except Unit (List PubMedArticleMetadata)
  efetchFull : String → Except Unit (Option FullTextContent)

/-- Stage 1, `PubMedClient.search_articles` (pubmed.py lines 51-119): no
retry decorator; the `try/except` catches every exception and returns
`[]` — the result is always `.ok`. -/
def search_articles (net : PubMedNet) : Except Unit (List String) :=
  .ok (match net.esearch with
       | .ok pmids => pmids
       | .error _ => [])

/-- Stage 2, `PubMedClient.get_article_metadata` (pubmed.py lines
121-175): records that fail to parse are already dropped inside the
oracle's list; the `try/except` catches every exception and returns
`[]`. -/
def get_article_metadata (net : PubMedNet) (pmids : List String) :
    Except Unit (List PubMedArticleMetadata) :=
  .ok (if pmids.isEmpty then []
       else match net.efetchMeta pmids with
            | .ok l => l
            | .error _ => [])

/-- Stage 3, `PubMedClient.get_full_text_article` (pubmed.py lines
257-298): any exception or unparsable body yields `None`; a parsed
article is stamped with the requested `pmcid` and its author list cut
to 5 (lines 357-366). -/
def get_full_text_article (net : PubMedNet) (pmcid : String) :
    Option PubMedFullTextArticle :=
  match net.efetchFull pmcid with
  | .error _ => none
  | .ok none => none
  | .ok (some c) =>
    some { pmcid := pmcid, pmid := none, title := c.title,
           abstract := c.abstract, full_text := c.full_text,
           sections := c.sections, authors := c.authors.take 5,
           journal := c.journal, doi := c.doi }

/-- `PubMedClient.search_and_get_full_text` (pubmed.py lines 390-446):
stage 1 → stage 2 → concurrent stage-3 fetches gathered with
`return_exceptions=True`, dropping `None`s and exceptions. -/
def search_and_get_full_text (net : PubMedNet) :
    Except Unit (List PubMedArticleMetadata × List PubMedFullTextArticle) :=
  match search_articles net with
  | .error e => .error e
  | .ok pmids =>
    if pmids.isEmpty then .ok ([], [])
    else
      match get_article_metadata net pmids with
      | .error e => .error e
      | .ok all_articles =>
        let articles_with_pmc := all_articles.filter (fun a => truthyOpt a.pmcid)
        if articles_with_pmc.isEmpty then .ok (all_articles, [])
        else
          .ok (all_articles, articles_with_pmc.filterMap
            (fun a => get_full_text_article net (a.pmcid.getD "")))

/-! ### Search Orchestrator, from `src/processors/search_orchestrator.py`
The three sub-searches run under `asyncio.gather(...,
return_exceptions=True)` (lines 67-72): each outcome is independent and
a failure in one never cancels the others, so the aggregation is a
function of the three outcomes. -/

/-- Joined outcomes of the three concurrent sub-searches.  `.error`
models a sub-search that raised past its own retry budget. -/
structure SourceOutcomes where
  fda : Except Unit (Option FDALabelResponse)
  pubmed : Except Unit (List PubMedArticleMetadata × List PubMedFullTextArticle)
  trials : Except Unit (List ClinicalTrialResult)

/-- `SearchOrchestrator.search_all_sources` (search_orchestrator.py lines
46-106): a failed source is replaced by `None` / `([], [])` / `[]`
(lines 75-77) and the provenance counters are computed from the
recovered lists (lines 89-98). -/
def search_all_sources (o : SourceOutcomes) : SearchResults :=
  let fda_label := match o.fda with
    | .ok v => v
    | .error _ => none
  let pubmed_result := match o.pubmed with
    | .ok v => v
    | .error _ => ([], [])
  let clinical_trials := match o.trials with
    | .ok v => v
    | .error _ => []
  let all_pubmed_articles := pubmed_result.1
  let pubmed_full_text := pubmed_result.2
  { fda_label := fda_label,
    pubmed_articles := all_pubmed_articles,
    pubmed_full_text := pubmed_full_text,
    clinical_trials := clinical_trials,
    pubmed_total_found := all_pubmed_articles.length,
    pubmed_full_text_available := pubmed_full_text.length,
    pubmed_abstract_only :=
      (all_pubmed_articles.length : Int) - pubmed_full_text.length,
    clinical_trials_found := clinical_trials.length }

/-- The request-level gate in `main.DrugClaimsRetrieval.process_query`
(main.py lines 127-133): `validate_search_results` failing raises
`ValueError`, otherwise the pipeline continues with the results. -/
def process_query_gate (sr : SearchResults) : Except (List String) SearchResults :=
  let v := validate_search_results sr
  if v.1 then .ok sr else .error v.2

/-! ### Evidence Ranker, from `src/processors/ranker.py` and
`src/utils/azure_openai_client.py`.
`AzureOpenAIClient.score_relevance` (azure_openai_client.py lines
122-190) catches every exception of the scoring call and returns the
default `5.0`, so `ResultsRanker._score_article` is total and the
`isinstance(score_result, Exception)` branch of `rank_articles` (ranker.py
lines 67-69) is unreachable. -/

/-- The LLM side of `score_relevance`: `some q` is a reply parsed by
`float(...)`, `none` is any failure inside the call (network error or
unparsable reply). -/
structure RelevanceOracle where
  response : String → UserIntent → Option ℚ

/-- `AzureOpenAIClient.score_relevance` (azure_openai_client.py lines
122-190) with `max_score = 10`: a parsed reply is clamped to
`[0, max_score]` (line 183), any failure returns `5.0` (lines 185-190). -/
def score_relevance (rel : RelevanceOracle) (article_text : String)
    (user_intent : UserIntent) : ℚ :=
  match rel.response article_text user_intent with
  | some score => min (max score 0) 10
  | none => 5

/-- The preview string built by `ResultsRanker._score_article` (ranker.py
lines 103-110). -/
def article_preview (article : PubMedFullTextArticle) : String :=
  let p := article.title ++ "\n\n"
  let p := match article.abstract with
    | some ab => if ab == "" then p else p ++ "Abstract: " ++ strTake ab 500
    | none => p
  let results_section := (dictGet article.sections "Results").getD ""
  if results_section == "" then p
  else p ++ "\n\nResults: " ++ strTake results_section 500

/-- `ResultsRanker._score_article` (ranker.py lines 83-131): constant
authority 8.5, clamped LLM relevance, constant recency 3.0. -/
def score_article (rel : RelevanceOracle) (article : PubMedFullTextArticle)
    (user_intent : UserIntent) : ℚ :=
  let authority_score : ℚ := 8.5
  let relevance_score := score_relevance rel (article_preview article) user_intent
  let recency_score : ℚ := 3.0
  authority_score + relevance_score + recency_score

/-- Stable insert for descending order.  `sortDesc` inserts earlier
input elements into the sorted later ones, so `x` (the earlier element)
passes over `y` only while `y`'s score is strictly greater, and lands
before any tie. -/
def insertDesc (x : PubMedFullTextArticle × ℚ) :
    List (PubMedFullTextArticle × ℚ) → List (PubMedFullTextArticle × ℚ)
  | [] => [x]
  | y :: ys => if x.2 < y.2 then y :: insertDesc x ys else x :: y :: ys

/-- Stable descending sort by score — the behaviour of Python's stable
`list.sort(key=lambda x: x[1], reverse=True)` (ranker.py line 76). -/
def sortDesc : List (PubMedFullTextArticle × ℚ) →
    List (PubMedFullTextArticle × ℚ)
  | [] => []
  | x :: xs => insertDesc x (sortDesc xs)

/-- `ResultsRanker.rank_articles` (ranker.py lines 28-81): score each
article (concurrently; outputs re-associated by position), pair, and
stably sort descending by score. -/
def rank_articles (rel : RelevanceOracle) (articles : List PubMedFullTextArticle)
    (user_intent : UserIntent) : List (PubMedFullTextArticle × ℚ) :=
  if articles.isEmpty then []
  else
    sortDesc (articles.map (fun a => (a, score_article rel a user_intent)))

/-- `ResultsRanker.get_excluded_articles` (ranker.py lines 165-195): one
entry per search hit whose `pmcid` is falsy. -/
def excludedEntryOf (article : PubMedArticleMetadata) : ExcludedArticleEntry :=
  { pmid := article.pmid,
    title := article.title,
    journal := article.journal,
    year := article.pub_year,
    authors := if article.authors.isEmpty then none
      else some (joinComma (article.authors.take 3)),
    abstract := match article.abstract with
      | some ab => if ab == "" then none else some (strTake ab 200 ++ "...")
      | none => none,
    note := "Relevant but full text not available in PMC - paywalled",
    doi := article.doi }

def get_excluded_articles (search_results : SearchResults) :
    List ExcludedArticleEntry :=
  (search_results.pubmed_articles.filter
    (fun a => !truthyOpt a.pmcid)).map excludedEntryOf

/-! ### Claims Generator, from `src/processors/claims_generator.py`
The text-generation service's two extraction operations are oracles
returning `Except Unit (Option ClaimData)`: `.error` models an
exception escaping the call (caught by the generator's `try/except`,
claims_generator.py lines 208-210 and 324-326), `.ok none` a falsy
(`None`/empty) reply, `.ok (some cd)` a claim-data dict.  A dict key
that is absent is `none` in `ClaimData`; accessing it with `[...]`
raises `KeyError`, which the same `try/except` turns into `None`. -/

structure GenOracles where
  fdaExtract : FDALabelResponse → String → Except Unit (Option ClaimData)
  articleExtract : PubMedFullTextArticle → String → Except Unit (Option ClaimData)

/-- Python `a or b` for an optional string. -/
def pyOr (o : Option String) (d : String) : String :=
  match o with
  | some s => if s == "" then d else s
  | none => d

/-- `ClaimsGenerator._generate_fda_claim` (claims_generator.py lines
143-210).  The completeness check is computed but its outcome ignored
("Continue anyway - FDA labels are authoritative", line 178); the claim
is built whenever both text fields are present. -/
def generate_fda_claim (o : GenOracles) (claim_id : Nat)
    (fda_label : FDALabelResponse) (claim_type : String) : Option Claim :=
  match o.fdaExtract fda_label claim_type with
  | .error _ => none
  | .ok none => none
  | .ok (some claim_data) =>
    match claim_data.claim_text, claim_data.substantiation with
    | some ct, some sub =>
      let citation : Citation :=
        { primary := true,
          citation_type := .FDA_LABEL,
          text := some (pyOr fda_label.brand_name "Drug" ++
            " Prescribing Information. FDA-approved label. " ++
            pyOr fda_label.effective_time "current" ++ "."),
          «section» := some (pyTitle claim_type),
          url := some "https://www.accessdata.fda.gov/scripts/cder/daf/" }
      some { claim_id := claim_id,
             claim_type := claim_type,
             claim_text := ct,
             substantiation := sub,
             source_type := .FDA_APPROVED_LABEL,
             citations := [citation],
             confidence := "Highest - FDA Approved",
             full_text_used := true,
             extracted_from := "FDA Label" }
    | _, _ => none

/-- `ClaimsGenerator._find_trial_citation` (claims_generator.py lines
328-357): first trial whose NCT id occurs (case-insensitively) in the
article's full text. -/
def find_trial_citation (article : PubMedFullTextArticle)
    (clinical_trials : List ClinicalTrialResult) : Option Citation :=
  clinical_trials.findSome? (fun trial =>
    if occursIn (strToLower trial.nct_id).data (strToLower article.full_text).data then
      some { primary := false,
             citation_type := .TRIAL_REGISTRY,
             text := some (pyOr trial.brief_title trial.official_title),
             nct := some trial.nct_id,
             url := some trial.url }
    else none)

/-- `ClaimsGenerator._generate_article_claim` (claims_generator.py lines
212-326).  A failed completeness check discards the candidate (lines
258-261); a failed numerical-accuracy check does NOT — it only selects
the "Medium" confidence label (lines 272-274 "Continue anyway but note
the issue", and lines 299-305). -/
def generate_article_claim (o : GenOracles) (claim_id : Nat)
    (article : PubMedFullTextArticle)
    (clinical_trials : List ClinicalTrialResult) (claim_type : String)
    (relevance_score : ℚ) : Option Claim :=
  match o.articleExtract article claim_type with
  | .error _ => none
  | .ok none => none
  | .ok (some claim_data) =>
    if !(validate_claim_completeness claim_data).1 then none
    else
      match claim_data.claim_text, claim_data.substantiation with
      | some ct, some sub =>
        let results_section :=
          (dictGet article.sections "Results").getD (strTake article.full_text 2000)
        let num_valid := (validate_numerical_accuracy ct sub results_section
          (claim_data.numerical_data.getD [])).1
        let authors_str :=
          let s := if article.authors.isEmpty then "Unknown"
            else joinComma (article.authors.take 3)
          if article.authors.length > 3 then s ++ " et al." else s
        let primary_citation : Citation :=
          { primary := true,
            citation_type := .JOURNAL_ARTICLE,
            authors := some authors_str,
            title := some article.title,
            journal := article.journal,
            pmcid := some article.pmcid,
            doi := article.doi,
            pmc_url := some ("https://www.ncbi.nlm.nih.gov/pmc/articles/" ++
              article.pmcid ++ "/"),
            full_text_available := true }
        let citations := match find_trial_citation article clinical_trials with
          | some tc => [primary_citation, tc]
          | none => [primary_citation]
        let confidence :=
          if num_valid && relevance_score ≥ 20 then
            "High - Full text substantiation with validated data"
          else if num_valid then
            "High - Full text substantiation"
          else
            "Medium - Full text available but numerical validation flagged issues"
        some { claim_id := claim_id,
               claim_type := claim_type,
               claim_text := ct,
               substantiation := sub,
               source_type := .PEER_REVIEWED_FULL_TEXT,
               citations := citations,
               confidence := confidence,
               full_text_used := true,
               extracted_from := claim_data.extracted_from.getD "Results section",
               numerical_data := claim_data.numerical_data.getD [] }
      | _, _ => none

/-- The article loop of `ClaimsGenerator.generate_claims`
(claims_generator.py lines 92-106): walk the ranked prefix, stop when
the accepted-claim count reaches the target, increment `claim_id` only
on acceptance. -/
def article_claims_loop (o : GenOracles)
    (clinical_trials : List ClinicalTrialResult) (claim_type : String)
    (target : Nat) :
    List (PubMedFullTextArticle × ℚ) → List Claim × Nat → List Claim × Nat
  | [], st => st
  | (article, relevance_score) :: rest, (claims, claim_id) =>
    if target ≤ claims.length then (claims, claim_id)
    else
      match generate_article_claim o claim_id article clinical_trials
          claim_type relevance_score with
      | some c =>
        article_claims_loop o clinical_trials claim_type target rest
          (claims ++ [c], claim_id + 1)
      | none =>
        article_claims_loop o clinical_trials claim_type target rest
          (claims, claim_id)

/-- `ClaimsGenerator.generate_claims` (claims_generator.py lines 44-141).
The result is `Except Unit _` because building the capped
`ArticleWithoutFullText` side list re-validates each entry dict against
the pydantic model, whose `journal` field is a required `str`
(claim.py line 77): an entry with `journal = None` raises. -/
def generate_claims (o : GenOracles) (search_results : SearchResults)
    (ranked_articles : List (PubMedFullTextArticle × ℚ))
    (clinical_trials : List ClinicalTrialResult) (user_intent : UserIntent)
    (search_time : ℚ) (excluded_articles : List ExcludedArticleEntry) :
    Except Unit ClaimsOutput :=
  let st0 : List Claim × Nat :=
    match search_results.fda_label with
    | some lbl =>
      match generate_fda_claim o 1 lbl user_intent.claim_type with
      | some c => ([c], 2)
      | none => ([], 1)
    | none => ([], 1)
  let target := user_intent.output_requirements.claim_count
  let articles_to_process := ranked_articles.take target
  let st := article_claims_loop o clinical_trials user_intent.claim_type target
    articles_to_process st0
  let claims := st.1
  let search_summary : SearchSummary :=
    { user_query := user_intent.original_query,
      sources_searched := ["OpenFDA", "PubMed/PMC", "ClinicalTrials.gov"],
      results_found :=
        [("fda_labels", if search_results.fda_label.isSome then 1 else 0),
         ("pubmed_total", search_results.pubmed_total_found),
         ("pubmed_full_text", search_results.pubmed_full_text_available),
         ("pubmed_abstract_only", search_results.pubmed_abstract_only),
         ("clinical_trials", search_results.clinical_trials_found)],
      full_text_strategy := "Claims generated only from full-text articles (PMC)",
      search_time_seconds := search_time }
  let entries := excluded_articles.take 10
  if entries.all (fun e => e.journal.isSome) then
    .ok { search_summary := search_summary,
          claims := claims,
          additional_context :=
            { articles_without_full_text := entries,
              recommendation := toString claims.length ++
                " claims generated from full-text sources. " ++
                toString excluded_articles.length ++
                " additional relevant articles identified but excluded due to lack of full text access." } }
  else .error ()

/-! ### Shared helper lemmas -/

theorem gate_fails_iff (sr : SearchResults) :
    (process_query_gate sr).isOk = false ↔
      sr.fda_label = none ∧ sr.pubmed_articles = [] ∧ sr.clinical_trials = [] := by
  rcases sr with ⟨fda, arts, fulls, trs, a, b, c, d⟩
  cases fda <;> cases arts <;> cases trs <;>
    simp [process_query_gate, validate_search_results, Except.isOk, Except.toBool]

theorem get_full_text_article_pmcid (net : PubMedNet) (pmcid : String)
    (ft : PubMedFullTextArticle)
    (h : get_full_text_article net pmcid = some ft) : ft.pmcid = pmcid := by
  unfold get_full_text_article at h
  rcases hf : net.efetchFull pmcid with e | v
  · simp [hf] at h
  · rcases v with _ | c <;> simp [hf] at h
    exact h ▸ rfl

theorem truthyOpt_iff (o : Option String) :
    truthyOpt o = true ↔ ∃ s, o = some s ∧ s ≠ "" := by
  cases o <;> simp [truthyOpt]

/-! ### C5 -/

/-- C5: for every `AggregatedResultSet` assembled by the Search
Orchestrator, `pubmed_full_text_available + pubmed_abstract_only =
pubmed_total_found`. -/
theorem aggregated_counter_invariant (o : SourceOutcomes) :
    (search_all_sources o).pubmed_full_text_available +
      (search_all_sources o).pubmed_abstract_only =
      (search_all_sources o).pubmed_total_found := by
  simp [search_all_sources]

/-! ### C3 -/

/-- C3: each source's contribution to the aggregated result depends only
on that source's own outcome; a source that raised past its retry budget
is recorded as absent with zero results; the request-level gate raises
exactly when no label, no articles and no trials were obtained. -/
theorem orchestrator_source_failure_recovery (o : SourceOutcomes) :
    ((search_all_sources o).fda_label =
      (match o.fda with | .ok v => v | .error _ => none))
  ∧ ((search_all_sources o).pubmed_articles =
      (match o.pubmed with | .ok v => v.1 | .error _ => []))
  ∧ ((search_all_sources o).pubmed_full_text =
      (match o.pubmed with | .ok v => v.2 | .error _ => []))
  ∧ ((search_all_sources o).clinical_trials =
      (match o.trials with | .ok v => v | .error _ => []))
  ∧ (o.pubmed.isOk = false →
      (search_all_sources o).pubmed_total_found = 0 ∧
      (search_all_sources o).pubmed_full_text_available = 0 ∧
      (search_all_sources o).pubmed_abstract_only = 0)
  ∧ (o.fda.isOk = false → (search_all_sources o).fda_label = none)
  ∧ (o.trials.isOk = false →
      (search_all_sources o).clinical_trials = [] ∧
      (search_all_sources o).clinical_trials_found = 0)
  ∧ ((process_query_gate (search_all_sources o)).isOk = false ↔
      (search_all_sources o).fda_label = none ∧
      (search_all_sources o).pubmed_articles = [] ∧
      (search_all_sources o).clinical_trials = []) := by
  refine ⟨?_, ?_, ?_, ?_, ?_, ?_, ?_, gate_fails_iff _⟩ <;>
    rcases o with ⟨fda, pm, trs⟩ <;>
    cases fda <;> cases pm <;> cases trs <;>
    simp [search_all_sources, Except.isOk, Except.toBool]

def lblC3 : FDALabelResponse :=
  { brand_name := some "Paxlovid", generic_name := none,
    indications_and_usage := ["adults at high risk"], clinical_studies := [],
    dosage_and_administration := [], adverse_reactions := [],
    effective_time := some "20230101" }

def oC3 : SourceOutcomes :=
  { fda := .ok (some lblC3), pubmed := .error (), trials := .ok [] }

theorem orchestrator_source_failure_recovery_witness :
    (search_all_sources oC3).pubmed_total_found = 0 ∧
    (search_all_sources oC3).fda_label = some lblC3 :=
  ⟨((orchestrator_source_failure_recovery oC3).2.2.2.2.1 rfl).1,
   ((orchestrator_source_failure_recovery oC3).1).trans rfl⟩

/-! ### C4 -/

/-- C4 (amended): no stage failure of the Dependent Fetch Chain ever
propagates to the caller — a failed stage-1 identifier search or a
failed stage-2 bulk-metadata call yields an empty list (the chain
returns no articles) and stage-3 per-item failures are silently dropped. -/
theorem chain_failures_never_propagate (net : PubMedNet) :
    ((search_and_get_full_text net).isOk = true)
  ∧ (net.esearch.isOk = false → search_and_get_full_text net = .ok ([], []))
  ∧ (∀ pmids, net.esearch = .ok pmids → pmids ≠ [] →
      (net.efetchMeta pmids).isOk = false →
      search_and_get_full_text net = .ok ([], [])) := by
  refine ⟨?_, ?_, ?_⟩
  · unfold search_and_get_full_text
    rcases hs : search_articles net with e | pmids
    · exact absurd hs (by unfold search_articles; simp)
    · by_cases hp : pmids.isEmpty = true
      · simp [hp, Except.isOk, Except.toBool]
      · rcases hm : get_article_metadata net pmids with e | all
        · exact absurd hm (by unfold get_article_metadata; simp)
        · simp only [hp, if_false, Bool.false_eq_true, hm]
          split <;> simp [Except.isOk, Except.toBool]
  · intro h
    rcases he : net.esearch with e | l
    · unfold search_and_get_full_text search_articles
      simp [he]
    · simp [he, Except.isOk, Except.toBool] at h
  · intro pmids hs hne hm
    rcases hm2 : net.efetchMeta pmids with e | l
    · unfold search_and_get_full_text search_articles get_article_metadata
      simp [hs, hm2, hne, List.isEmpty_iff]
    · simp [hm2, Except.isOk, Except.toBool] at hm

def netC4 : PubMedNet :=
  { esearch := .error (), efetchMeta := fun _ => .error (),
    efetchFull := fun _ => .error () }

def netC4b : PubMedNet :=
  { esearch := .ok ["101"], efetchMeta := fun _ => .error (),
    efetchFull := fun _ => .error () }

theorem chain_failures_never_propagate_witness :
    search_and_get_full_text netC4 = Except.ok ([], []) ∧
    search_and_get_full_text netC4b = Except.ok ([], []) :=
  ⟨(chain_failures_never_propagate netC4).2.1 rfl,
   (chain_failures_never_propagate netC4b).2.2 ["101"] rfl (by decide) rfl⟩

/-- C4 counterexample: a stage-1 call that fails (its retries, of which
the code in fact installs none for stage 1, exhausted) does NOT
propagate an error to the caller — the chain returns a normal empty
result. -/
theorem chain_stage_failure_cx :
    search_and_get_full_text netC4 = Except.ok ([], []) ∧
    netC4.esearch = Except.error () := ⟨rfl, rfl⟩

/-! ### C6 -/

/-- C6: every full-text article returned by the Dependent Fetch Chain
corresponds (by identifier) to a returned metadata summary whose
secondary (PMC) identifier is non-null. -/
theorem full_text_subset_of_metadata (net : PubMedNet)
    (all : List PubMedArticleMetadata) (fulls : List PubMedFullTextArticle)
    (hok : search_and_get_full_text net = .ok (all, fulls))
    (ft : PubMedFullTextArticle) (hft : ft ∈ fulls) :
    ∃ m ∈ all, m.pmcid = some ft.pmcid ∧ ft.pmcid ≠ "" := by
  unfold search_and_get_full_text at hok
  rcases hs : search_articles net with e | pmids
  · rw [hs] at hok; simp at hok
  · rw [hs] at hok
    by_cases hp : pmids.isEmpty = true
    · simp [hp] at hok
      rcases hok with ⟨h1, h2⟩
      subst h2; simp at hft
    · rcases hm : get_article_metadata net pmids with e | l
      · exact absurd hm (by unfold get_article_metadata; simp)
      · simp only [hp, if_false, Bool.false_eq_true, hm] at hok
        split at hok
        · simp at hok
          rcases hok with ⟨h1, h2⟩
          subst h2; simp at hft
        · simp at hok
          rcases hok with ⟨h1, h2⟩
          subst h1; subst h2
          rw [List.mem_filterMap] at hft
          obtain ⟨a, ha, hget⟩ := hft
          rw [List.mem_filter] at ha
          obtain ⟨hmem, htr⟩ := ha
          obtain ⟨s, hsome, hne⟩ := (truthyOpt_iff _).mp htr
          have hpm := get_full_text_article_pmcid net (a.pmcid.getD "") ft hget
          refine ⟨a, hmem, ?_, ?_⟩
          · rw [hsome] at hpm ⊢
            simp at hpm
            rw [hpm]
          · rw [hsome] at hpm
            simp at hpm
            rw [hpm]; exact hne

def m1C6 : PubMedArticleMetadata :=
  { pmid := "1", title := "Trial report", abstract := none, authors := [],
    journal := some "J Med", pub_year := some 2023, doi := none,
    pmcid := some "PMC1" }

def contentC6 : FullTextContent :=
  { title := "Trial report", abstract := none, full_text := "body",
    sections := [], authors := [], journal := some "J Med", doi := none }

def netC6 : PubMedNet :=
  { esearch := .ok ["1"], efetchMeta := fun _ => .ok [m1C6],
    efetchFull := fun _ => .ok (some contentC6) }

def ftC6 : PubMedFullTextArticle :=
  { pmcid := "PMC1", pmid := none, title := "Trial report", abstract := none,
    full_text := "body", sections := [], authors := [],
    journal := some "J Med", doi := none }

theorem full_text_subset_of_metadata_witness :
    ∃ m ∈ [m1C6], m.pmcid = some ftC6.pmcid ∧ ftC6.pmcid ≠ "" :=
  full_text_subset_of_metadata netC6 [m1C6] [ftC6] rfl ftC6 (by simp)

/-! ### Ranker lemmas (C8, C9) -/

theorem insertDesc_length (x : PubMedFullTextArticle × ℚ)
    (l : List (PubMedFullTextArticle × ℚ)) :
    (insertDesc x l).length = l.length + 1 := by
  induction l with
  | nil => rfl
  | cons y ys ih => by_cases h : x.2 < y.2 <;> simp [insertDesc, h, ih]

theorem sortDesc_length (l : List (PubMedFullTextArticle × ℚ)) :
    (sortDesc l).length = l.length := by
  induction l with
  | nil => rfl
  | cons x xs ih => simp [sortDesc, insertDesc_length, ih]

theorem mem_insertDesc (x p : PubMedFullTextArticle × ℚ)
    (l : List (PubMedFullTextArticle × ℚ)) :
    p ∈ insertDesc x l ↔ p = x ∨ p ∈ l := by
  induction l with
  | nil => simp [insertDesc]
  | cons y ys ih =>
    by_cases h : x.2 < y.2 <;> simp [insertDesc, h, ih] <;> tauto

theorem mem_sortDesc (p : PubMedFullTextArticle × ℚ)
    (l : List (PubMedFullTextArticle × ℚ)) :
    p ∈ sortDesc l ↔ p ∈ l := by
  induction l with
  | nil => simp [sortDesc]
  | cons x xs ih => simp [sortDesc, mem_insertDesc, ih]

theorem insertDesc_pairwise (x : PubMedFullTextArticle × ℚ)
    (l : List (PubMedFullTextArticle × ℚ))
    (h : l.Pairwise (fun a b => b.2 ≤ a.2)) :
    (insertDesc x l).Pairwise (fun a b => b.2 ≤ a.2) := by
  induction l with
  | nil => simp [insertDesc]
  | cons y ys ih =>
    rw [List.pairwise_cons] at h
    obtain ⟨hy, hys⟩ := h
    by_cases hc : x.2 < y.2
    · rw [insertDesc, if_pos hc, List.pairwise_cons]
      refine ⟨?_, ih hys⟩
      intro z hz
      rcases (mem_insertDesc x z ys).mp hz with rfl | hzys
      · exact le_of_lt hc
      · exact hy z hzys
    · rw [insertDesc, if_neg hc, List.pairwise_cons]
      push_neg at hc
      refine ⟨?_, List.pairwise_cons.mpr ⟨hy, hys⟩⟩
      intro z hz
      rcases hz with _ | hzys
      · exact hc
      · exact le_trans (hy z (by assumption)) hc

theorem sortDesc_pairwise (l : List (PubMedFullTextArticle × ℚ)) :
    (sortDesc l).Pairwise (fun a b => b.2 ≤ a.2) := by
  induction l with
  | nil => simp [sortDesc]
  | cons x xs ih => exact insertDesc_pairwise x (sortDesc xs) ih

theorem insertDesc_filter (x : PubMedFullTextArticle × ℚ)
    (l : List (PubMedFullTextArticle × ℚ)) (q : ℚ) :
    (insertDesc x l).filter (fun p => p.2 == q)
      = (if x.2 == q then [x] else []) ++ l.filter (fun p => p.2 == q) := by
  induction l with
  | nil => by_cases h : x.2 == q <;> simp [insertDesc, List.filter, h]
  | cons y ys ih =>
    by_cases hc : x.2 < y.2
    · rw [insertDesc, if_pos hc]
      by_cases hx : x.2 = q
      · have hy : ¬(y.2 = q) := by
          intro hyq
          rw [hx] at hc
          rw [hyq] at hc
          exact lt_irrefl q hc
        simp [List.filter_cons, hx, hy, ih]
      · simp [List.filter_cons, hx, ih]
    · rw [insertDesc, if_neg hc]
      by_cases hx : x.2 = q <;> simp [List.filter_cons, hx]

theorem sortDesc_filter (l : List (PubMedFullTextArticle × ℚ)) (q : ℚ) :
    (sortDesc l).filter (fun p => p.2 == q) = l.filter (fun p => p.2 == q) := by
  induction l with
  | nil => simp [sortDesc]
  | cons x xs ih =>
    rw [sortDesc, insertDesc_filter, ih, List.filter_cons]
    by_cases hx : x.2 = q <;> simp [hx]

/-! ### C8 -/

/-- C8: the Ranker returns one (article, score) pair per input article,
sorted descending by score, and stable on ties — pairs with any given
score appear in their original (scoring-list) relative order. -/
theorem ranker_length_sorted_stable (rel : RelevanceOracle)
    (articles : List PubMedFullTextArticle) (intent : UserIntent) :
    (rank_articles rel articles intent).length = articles.length
  ∧ (rank_articles rel articles intent).Pairwise (fun a b => b.2 ≤ a.2)
  ∧ (∀ q : ℚ, (rank_articles rel articles intent).filter (fun p => p.2 == q)
      = (articles.map (fun a => (a, score_article rel a intent))).filter
          (fun p => p.2 == q)) := by
  by_cases h : articles.isEmpty = true
  · rw [List.isEmpty_iff] at h
    subst h
    simp [rank_articles]
  · rw [rank_articles, if_neg h]
    exact ⟨by rw [sortDesc_length, List.length_map],
      sortDesc_pairwise _, fun q => sortDesc_filter _ q⟩

/-! ### C9 -/

/-- C9: every ranked article's total score is the fixed authority
constant 8.5 plus a relevance component bounded to [0, 10] plus the
fixed recency constant 3.0; a failed relevance call contributes the
default mid-range component 5.0 and no failure escapes the Ranker. -/
theorem ranker_score_decomposition (rel : RelevanceOracle)
    (articles : List PubMedFullTextArticle) (intent : UserIntent)
    (p : PubMedFullTextArticle × ℚ)
    (hp : p ∈ rank_articles rel articles intent) :
    ∃ r : ℚ, 0 ≤ r ∧ r ≤ 10 ∧ p.2 = (8.5 : ℚ) + r + (3.0 : ℚ) ∧
      (rel.response (article_preview p.1) intent = none → r = 5) := by
  have hmem : p ∈ articles.map (fun a => (a, score_article rel a intent)) := by
    rw [rank_articles] at hp
    split at hp
    · simp at hp
    · exact (mem_sortDesc p _).mp hp
  rw [List.mem_map] at hmem
  obtain ⟨a, _, rfl⟩ := hmem
  refine ⟨score_relevance rel (article_preview a) intent, ?_, ?_, ?_, ?_⟩
  · rw [score_relevance]
    rcases rel.response (article_preview a) intent with _ | q
    · norm_num
    · exact le_min (le_max_right q 0) (by norm_num)
  · rw [score_relevance]
    rcases rel.response (article_preview a) intent with _ | q
    · norm_num
    · exact min_le_right _ 10
  · rfl
  · intro hn
    rw [score_relevance, hn]

def relC9 : RelevanceOracle := { response := fun _ _ => none }

def artC9 : PubMedFullTextArticle :=
  { pmcid := "PMC9", pmid := none, title := "Study", abstract := none,
    full_text := "text", sections := [], authors := [],
    journal := none, doi := none }

def pC9 : PubMedFullTextArticle × ℚ := (artC9, score_article relC9 artC9 default)

theorem ranker_score_decomposition_witness :
    ∃ r : ℚ, 0 ≤ r ∧ r ≤ 10 ∧
      pC9.2 = (8.5 : ℚ) + r + (3.0 : ℚ) ∧
      (relC9.response (article_preview pC9.1) default = none → r = 5) :=
  ranker_score_decomposition relC9 [artC9] default pC9
    (List.mem_singleton_self pC9)

/-! ### Generator lemmas (C1, C2, C10) -/

theorem range'_snoc (s n : Nat) :
    List.range' s (n + 1) = List.range' s n ++ [s + n] := by
  induction n generalizing s with
  | zero => simp [List.range']
  | succ m ih =>
    show s :: List.range' (s + 1) (m + 1)
      = (s :: List.range' (s + 1) m) ++ [s + (m + 1)]
    rw [ih (s + 1), List.cons_append]
    have harith : s + 1 + m = s + (m + 1) := by omega
    rw [harith]

theorem completeness_fields_present (cd : ClaimData)
    (h : (validate_claim_completeness cd).1 = true) :
    cd.claim_text.isSome = true ∧ cd.substantiation.isSome = true := by
  rcases cd with ⟨a, b, nd, ef⟩
  rcases a with _ | sa <;> rcases b with _ | sb <;>
    simp only [validate_claim_completeness, truthyOpt] at h <;>
    simp at h ⊢ <;> revert h <;> split_ifs <;> simp

theorem generate_article_claim_props (o : GenOracles) (cid : Nat)
    (article : PubMedFullTextArticle) (trials : List ClinicalTrialResult)
    (ct : String) (s : ℚ) (c : Claim)
    (h : generate_article_claim o cid article trials ct s = some c) :
    c.claim_id = cid ∧ c.source_type = SourceType.PEER_REVIEWED_FULL_TEXT ∧
    (validate_claim_completeness
      { claim_text := some c.claim_text, substantiation := some c.substantiation,
        numerical_data := none, extracted_from := none }).1 = true := by
  unfold generate_article_claim at h
  rcases ho : o.articleExtract article ct with e | v
  · simp [ho] at h
  · rcases v with _ | cd
    · simp [ho] at h
    · simp only [ho] at h
      by_cases hval : (validate_claim_completeness cd).1 = true
      · rcases hct : cd.claim_text with _ | ctext
        · simp [hval, hct] at h
        · rcases hsub : cd.substantiation with _ | subt
          · simp [hval, hct, hsub] at h
          · simp only [hval, Bool.not_true, Bool.false_eq_true, if_false,
              hct, hsub, Option.some.injEq] at h
            subst h
            rcases cd with ⟨a, b, nd, ef⟩
            simp at hct hsub
            subst hct; subst hsub
            exact ⟨rfl, rfl, hval⟩
      · simp [Bool.of_not_eq_true hval] at h

theorem generate_article_claim_isSome (o : GenOracles) (cid : Nat)
    (article : PubMedFullTextArticle) (trials : List ClinicalTrialResult)
    (ct : String) (s : ℚ) :
    (generate_article_claim o cid article trials ct s).isSome = true ↔
      ∃ cd, o.articleExtract article ct = .ok (some cd) ∧
        (validate_claim_completeness cd).1 = true := by
  constructor
  · intro h
    unfold generate_article_claim at h
    rcases ho : o.articleExtract article ct with e | v
    · simp [ho] at h
    · rcases v with _ | cd
      · simp [ho] at h
      · simp only [ho] at h
        by_cases hval : (validate_claim_completeness cd).1 = true
        · exact ⟨cd, rfl, hval⟩
        · simp [Bool.of_not_eq_true hval] at h
  · rintro ⟨cd, hcd, hval⟩
    obtain ⟨hct, hsub⟩ := completeness_fields_present cd hval
    unfold generate_article_claim
    rw [hcd]
    rcases h1 : cd.claim_text with _ | ctext
    · rw [h1] at hct; simp at hct
    · rcases h2 : cd.substantiation with _ | subt
      · rw [h2] at hsub; simp at hsub
      · simp [hval, h1, h2]

theorem generate_fda_claim_props (o : GenOracles) (cid : Nat)
    (lbl : FDALabelResponse) (ct : String) (c : Claim)
    (h : generate_fda_claim o cid lbl ct = some c) :
    c.claim_id = cid ∧ c.source_type = SourceType.FDA_APPROVED_LABEL := by
  unfold generate_fda_claim at h
  rcases ho : o.fdaExtract lbl ct with e | v
  · simp [ho] at h
  · rcases v with _ | cd
    · simp [ho] at h
    · simp only [ho] at h
      rcases hct : cd.claim_text with _ | ctext
      · simp [hct] at h
      · rcases hsub : cd.substantiation with _ | subt
        · simp [hct, hsub] at h
        · simp only [hct, hsub, Option.some.injEq] at h
          subst h
          exact ⟨rfl, rfl⟩

theorem generate_fda_claim_isSome (o : GenOracles) (cid : Nat)
    (lbl : FDALabelResponse) (ct : String) :
    (generate_fda_claim o cid lbl ct).isSome = true ↔
      ∃ cd, o.fdaExtract lbl ct = .ok (some cd) ∧
        cd.claim_text.isSome = true ∧ cd.substantiation.isSome = true := by
  constructor
  · intro h
    unfold generate_fda_claim at h
    rcases ho : o.fdaExtract lbl ct with e | v
    · simp [ho] at h
    · rcases v with _ | cd
      · simp [ho] at h
      · rcases hct : cd.claim_text with _ | ctext
        · simp [ho, hct] at h
        · rcases hsub : cd.substantiation with _ | subt
          · simp [ho, hct, hsub] at h
          · exact ⟨cd, rfl, by simp [hct], by simp [hsub]⟩
  · rintro ⟨cd, hcd, hct, hsub⟩
    unfold generate_fda_claim
    rw [hcd]
    rcases h1 : cd.claim_text with _ | ctext
    · rw [h1] at hct; simp at hct
    · rcases h2 : cd.substantiation with _ | subt
      · rw [h2] at hsub; simp at hsub
      · simp [h1, h2]

theorem article_claims_loop_spec (o : GenOracles)
    (trials : List ClinicalTrialResult) (ct : String) (target : Nat)
    (l : List (PubMedFullTextArticle × ℚ)) :
    ∀ claims cid,
      claims.map (fun c => c.claim_id) = List.range' 1 claims.length →
      cid = claims.length + 1 →
      ((article_claims_loop o trials ct target l (claims, cid)).1.map
          (fun c => c.claim_id)
        = List.range' 1
            (article_claims_loop o trials ct target l (claims, cid)).1.length)
      ∧ (claims.length ≤ target →
          (article_claims_loop o trials ct target l (claims, cid)).1.length ≤ target)
      ∧ (∀ c ∈ (article_claims_loop o trials ct target l (claims, cid)).1,
          c ∈ claims ∨ ∃ cid2 s a, generate_article_claim o cid2 a trials ct s = some c) := by
  induction l with
  | nil =>
    intro claims cid h1 h2
    refine ⟨h1, fun h => h, fun c hc => Or.inl ?_⟩
    simpa [article_claims_loop] using hc
  | cons hd rest ih =>
    intro claims cid h1 h2
    obtain ⟨article, score⟩ := hd
    by_cases hlen : target ≤ claims.length
    · rw [article_claims_loop, if_pos hlen]
      exact ⟨h1, fun h => h, fun c hc => Or.inl hc⟩
    · rw [article_claims_loop, if_neg hlen]
      rcases hgen : generate_article_claim o cid article trials ct score with _ | c
      · exact ih claims cid h1 h2
      · have hcid : c.claim_id = cid :=
          (generate_article_claim_props o cid article trials ct score c hgen).1
        have h1' : (claims ++ [c]).map (fun c => c.claim_id)
            = List.range' 1 (claims ++ [c]).length := by
          rw [List.map_append, h1, List.length_append]
          simp [hcid, h2, range'_snoc]
          omega
        have h2' : cid + 1 = (claims ++ [c]).length + 1 := by
          simp [h2]
        obtain ⟨g1, g2, g3⟩ := ih (claims ++ [c]) (cid + 1) h1' h2'
        refine ⟨g1, fun hle => g2 ?_, fun c2 hc2 => ?_⟩
        · rw [List.length_append]
          simp
          omega
        · rcases g3 c2 hc2 with hin | hex
          · rcases List.mem_append.mp hin with hin2 | hin2
            · exact Or.inl hin2
            · rw [List.mem_singleton] at hin2
              subst hin2
              exact Or.inr ⟨cid, score, article, hgen⟩
          · exact Or.inr hex

theorem generate_claims_ok_shape (o : GenOracles) (sr : SearchResults)
    (ranked : List (PubMedFullTextArticle × ℚ))
    (trials : List ClinicalTrialResult) (intent : UserIntent) (t : ℚ)
    (excl : List ExcludedArticleEntry) (out : ClaimsOutput)
    (hok : generate_claims o sr ranked trials intent t excl = .ok out) :
    out.claims = (article_claims_loop o trials intent.claim_type
        intent.output_requirements.claim_count
        (ranked.take intent.output_requirements.claim_count)
        (match sr.fda_label with
         | some lbl =>
           (match generate_fda_claim o 1 lbl intent.claim_type with
            | some c => ([c], 2)
            | none => ([], 1))
         | none => ([], 1))).1
    ∧ out.additional_context.articles_without_full_text = excl.take 10 := by
  unfold generate_claims at hok
  by_cases hall : ((excl.take 10).all fun e => e.journal.isSome) = true
  · simp only [hall, if_true] at hok
    rw [Except.ok.injEq] at hok
    subst hok
    exact ⟨rfl, rfl⟩
  · simp only [hall, if_false, Bool.false_eq_true] at hok
    simp at hok

/-! ### C2 -/

/-- C2: for every intent whose quota n satisfies the model bound
1 ≤ n ≤ 20, the generator's claim list has length at most n and the
claim ids are exactly 1, 2, …, k in list order, however many candidates
were discarded. -/
theorem generator_quota_and_contiguous_ids (o : GenOracles)
    (sr : SearchResults) (ranked : List (PubMedFullTextArticle × ℚ))
    (trials : List ClinicalTrialResult) (intent : UserIntent) (t : ℚ)
    (excl : List ExcludedArticleEntry) (out : ClaimsOutput)
    (h1 : 1 ≤ intent.output_requirements.claim_count)
    (h2 : intent.output_requirements.claim_count ≤ 20)
    (hok : generate_claims o sr ranked trials intent t excl = .ok out) :
    out.claims.length ≤ intent.output_requirements.claim_count ∧
    out.claims.map (fun c => c.claim_id) = List.range' 1 out.claims.length := by
  obtain ⟨hclaims, _⟩ :=
    generate_claims_ok_shape o sr ranked trials intent t excl out hok
  rw [hclaims]
  rcases hfda : sr.fda_label with _ | lbl
  · simp only [hfda]
    obtain ⟨g1, g2, _⟩ := article_claims_loop_spec o trials intent.claim_type
      intent.output_requirements.claim_count
      (ranked.take intent.output_requirements.claim_count) [] 1 (by simp) rfl
    exact ⟨g2 (Nat.zero_le _), g1⟩
  · simp only [hfda]
    rcases hgen : generate_fda_claim o 1 lbl intent.claim_type with _ | c
    · simp only [hgen]
      obtain ⟨g1, g2, _⟩ := article_claims_loop_spec o trials intent.claim_type
        intent.output_requirements.claim_count
        (ranked.take intent.output_requirements.claim_count) [] 1 (by simp) rfl
      exact ⟨g2 (Nat.zero_le _), g1⟩
    · simp only [hgen]
      have hc1 : c.claim_id = 1 :=
        (generate_fda_claim_props o 1 lbl intent.claim_type c hgen).1
      obtain ⟨g1, g2, _⟩ := article_claims_loop_spec o trials intent.claim_type
        intent.output_requirements.claim_count
        (ranked.take intent.output_requirements.claim_count) [c] 2
        (by simp [hc1, List.range']) rfl
      exact ⟨g2 (by simpa using h1), g1⟩

def oC2 : GenOracles :=
  { fdaExtract := fun _ _ => .ok none,
    articleExtract := fun _ _ => .ok (some
      { claim_text := some "Drug reduces risk substantially in adults",
        substantiation := some "In the pivotal randomized trial the relative risk reduction was large compared with placebo over the whole study period in adults.",
        numerical_data := none, extracted_from := none }) }

def srC2 : SearchResults :=
  { fda_label := none, pubmed_articles := [], pubmed_full_text := [],
    clinical_trials := [], pubmed_total_found := 0,
    pubmed_full_text_available := 0, pubmed_abstract_only := 0,
    clinical_trials_found := 0 }

def artC2 : PubMedFullTextArticle :=
  { pmcid := "PMC2", pmid := none, title := "Trial",
    abstract := none,
    full_text := "no numeric content here",
    sections := [], authors := [], journal := some "J", doi := none }

def intentC2 : UserIntent :=
  { original_query := "efficacy claims", drug :=
      { brand_name := some "DrugX", generic_name := none, synonyms := [],
        search_terms := [] },
    claim_type := "efficacy", indication := none, population := none,
    output_requirements :=
      { claim_count := 2, include_substantiation := true,
        format_type := "MLR-ready", include_safety := false,
        include_dosing := false } }

def outC2 : ClaimsOutput :=
  match generate_claims oC2 srC2 [(artC2, 5), (artC2, 4), (artC2, 3)] []
      intentC2 0 [] with
  | .ok out => out
  | .error _ => default

theorem generator_quota_and_contiguous_ids_witness :
    outC2.claims.length ≤ intentC2.output_requirements.claim_count ∧
    outC2.claims.map (fun c => c.claim_id) = List.range' 1 outC2.claims.length :=
  generator_quota_and_contiguous_ids oC2 srC2 [(artC2, 5), (artC2, 4), (artC2, 3)]
    [] intentC2 0 [] outC2 (by decide) (by decide) rfl

/-! ### C1 -/

/-- C1 (amended): an article-derived candidate is accepted exactly when
extraction succeeded and the completeness check passed — so every
article-derived claim in the output passes completeness, and a failed
numeric-fidelity check never discards a candidate (it only selects the
"Medium" confidence label); a label-derived candidate is accepted
whenever extraction returned both text fields, regardless of the
completeness outcome. -/
theorem claims_validation_discipline (o : GenOracles) (sr : SearchResults)
    (ranked : List (PubMedFullTextArticle × ℚ))
    (trials : List ClinicalTrialResult) (intent : UserIntent) (t : ℚ)
    (excl : List ExcludedArticleEntry) (out : ClaimsOutput)
    (hok : generate_claims o sr ranked trials intent t excl = .ok out) :
    (∀ c ∈ out.claims, c.source_type = SourceType.PEER_REVIEWED_FULL_TEXT →
       (validate_claim_completeness
         { claim_text := some c.claim_text,
           substantiation := some c.substantiation, numerical_data := none,
           extracted_from := none }).1 = true)
  ∧ (∀ cid article s,
       (generate_article_claim o cid article trials intent.claim_type s).isSome
           = true ↔
       ∃ cd, o.articleExtract article intent.claim_type = .ok (some cd) ∧
         (validate_claim_completeness cd).1 = true)
  ∧ (∀ cid lbl,
       (generate_fda_claim o cid lbl intent.claim_type).isSome = true ↔
       ∃ cd, o.fdaExtract lbl intent.claim_type = .ok (some cd) ∧
         cd.claim_text.isSome = true ∧ cd.substantiation.isSome = true) := by
  refine ⟨?_, fun cid article s =>
      generate_article_claim_isSome o cid article trials intent.claim_type s,
    fun cid lbl => generate_fda_claim_isSome o cid lbl intent.claim_type⟩
  intro c hc hsrc
  obtain ⟨hclaims, _⟩ :=
    generate_claims_ok_shape o sr ranked trials intent t excl out hok
  rw [hclaims] at hc
  rcases hfda : sr.fda_label with _ | lbl
  · simp only [hfda] at hc
    obtain ⟨_, _, g3⟩ := article_claims_loop_spec o trials intent.claim_type
      intent.output_requirements.claim_count
      (ranked.take intent.output_requirements.claim_count) [] 1 (by simp) rfl
    rcases g3 c hc with hin | ⟨cid2, s2, a2, hgen⟩
    · simp at hin
    · exact (generate_article_claim_props o cid2 a2 trials
        intent.claim_type s2 c hgen).2.2
  · simp only [hfda] at hc
    rcases hgen0 : generate_fda_claim o 1 lbl intent.claim_type with _ | c0
    · simp only [hgen0] at hc
      obtain ⟨_, _, g3⟩ := article_claims_loop_spec o trials intent.claim_type
        intent.output_requirements.claim_count
        (ranked.take intent.output_requirements.claim_count) [] 1 (by simp) rfl
      rcases g3 c hc with hin | ⟨cid2, s2, a2, hgen⟩
      · simp at hin
      · exact (generate_article_claim_props o cid2 a2 trials
          intent.claim_type s2 c hgen).2.2
    · simp only [hgen0] at hc
      have hc0 : c0.claim_id = 1 :=
        (generate_fda_claim_props o 1 lbl intent.claim_type c0 hgen0).1
      obtain ⟨_, _, g3⟩ := article_claims_loop_spec o trials intent.claim_type
        intent.output_requirements.claim_count
        (ranked.take intent.output_requirements.claim_count) [c0] 2
        (by simp [hc0, List.range']) rfl
      rcases g3 c hc with hin | ⟨cid2, s2, a2, hgen⟩
      · rw [List.mem_singleton] at hin
        subst hin
        have hty :=
          (generate_fda_claim_props o 1 lbl intent.claim_type c hgen0).2
        rw [hty] at hsrc
        cases hsrc
      · exact (generate_article_claim_props o cid2 a2 trials
          intent.claim_type s2 c hgen).2.2

def lblC1 : FDALabelResponse :=
  { brand_name := some "DrugX", generic_name := none,
    indications_and_usage := [], clinical_studies := [],
    dosage_and_administration := [], adverse_reactions := [],
    effective_time := none }

def cdFdaC1 : ClaimData :=
  { claim_text := some "short text", substantiation := some "sub",
    numerical_data := none, extracted_from := none }

def cdArtC1 : ClaimData :=
  { claim_text := some "Drug reduces risk substantially in adults",
    substantiation := some "In the pivotal randomized trial the relative risk reduction reached 92% compared with placebo over the whole study period.",
    numerical_data := none, extracted_from := none }

def artC1 : PubMedFullTextArticle :=
  { pmcid := "PMC1x", pmid := none, title := "Trial", abstract := none,
    full_text := "ft",
    sections := [("Results", "...an 89% relative risk reduction...")],
    authors := [], journal := some "J", doi := none }

def oC1 : GenOracles :=
  { fdaExtract := fun _ _ => .ok (some cdFdaC1),
    articleExtract := fun _ _ => .ok (some cdArtC1) }

def srC1 : SearchResults :=
  { fda_label := some lblC1, pubmed_articles := [], pubmed_full_text := [],
    clinical_trials := [], pubmed_total_found := 0,
    pubmed_full_text_available := 0, pubmed_abstract_only := 0,
    clinical_trials_found := 0 }

def intentC1 : UserIntent :=
  { original_query := "efficacy claims for DrugX", drug :=
      { brand_name := some "DrugX", generic_name := none, synonyms := [],
        search_terms := [] },
    claim_type := "efficacy", indication := none, population := none,
    output_requirements :=
      { claim_count := 3, include_substantiation := true,
        format_type := "MLR-ready", include_safety := false,
        include_dosing := false } }

set_option maxRecDepth 100000 in
/-- C1 counterexample: on this run the returned list contains a
label-derived claim (id 1) that fails the completeness check, and an
article-derived claim (id 2) that failed the numeric-fidelity check
(its substantiation says 92% while its source section says 89%) yet is
present, with the "Medium" confidence label rather than discarded. -/
theorem claims_validation_cx :
    ((generate_claims oC1 srC1 [(artC1, 25)] [] intentC1 0 []).map
        (fun out => out.claims.map (fun c =>
          (c.claim_id, c.confidence,
            (validate_claim_completeness
              { claim_text := some c.claim_text,
                substantiation := some c.substantiation,
                numerical_data := none, extracted_from := none }).1))))
    = Except.ok
        [(1, ("Highest - FDA Approved", false)),
         (2, ("Medium - Full text available but numerical validation flagged issues",
              true))] := by
  rfl

def outC1 : ClaimsOutput :=
  match generate_claims oC1 srC1 [(artC1, 25)] [] intentC1 0 [] with
  | .ok out => out
  | .error _ => default

def claimArtC1 : Claim := outC1.claims.getD 1 default

set_option maxRecDepth 100000 in
theorem claims_validation_discipline_witness :
    (validate_claim_completeness
      { claim_text := some claimArtC1.claim_text,
        substantiation := some claimArtC1.substantiation,
        numerical_data := none, extracted_from := none }).1 = true :=
  (claims_validation_discipline oC1 srC1 [(artC1, 25)] [] intentC1 0 []
      outC1 rfl).1 claimArtC1 (by decide) (by decide)

/-! ### C10 -/

/-- C10 (amended): the excluded-articles side list is the entry list of
the aggregated search hits that LACK a PMC identifier, in order, capped
at 10 entries, each carrying the relevant-but-inaccessible explanation;
whenever at most 10 such summaries exist, every one of them appears.  A
summary that has a PMC identifier but whose full text was not retrieved
does not appear. -/
theorem excluded_side_list_spec (o : GenOracles) (sr : SearchResults)
    (ranked : List (PubMedFullTextArticle × ℚ))
    (trials : List ClinicalTrialResult) (intent : UserIntent) (t : ℚ)
    (out : ClaimsOutput)
    (hok : generate_claims o sr ranked trials intent t
      (get_excluded_articles sr) = .ok out) :
    out.additional_context.articles_without_full_text
        = (get_excluded_articles sr).take 10
  ∧ out.additional_context.articles_without_full_text.length ≤ 10
  ∧ (∀ e ∈ out.additional_context.articles_without_full_text,
      e.note = "Relevant but full text not available in PMC - paywalled")
  ∧ (∀ e ∈ out.additional_context.articles_without_full_text,
      ∃ a ∈ sr.pubmed_articles, truthyOpt a.pmcid = false ∧ e = excludedEntryOf a)
  ∧ ((sr.pubmed_articles.filter (fun a => !truthyOpt a.pmcid)).length ≤ 10 →
      ∀ a ∈ sr.pubmed_articles, truthyOpt a.pmcid = false →
        excludedEntryOf a ∈ out.additional_context.articles_without_full_text) := by
  obtain ⟨_, hside⟩ := generate_claims_ok_shape o sr ranked trials intent t
    (get_excluded_articles sr) out hok
  rw [hside]
  refine ⟨rfl, ?_, ?_, ?_, ?_⟩
  · rw [List.length_take]
    exact min_le_left _ _
  · intro e he
    have he2 := List.take_subset 10 _ he
    rw [get_excluded_articles, List.mem_map] at he2
    obtain ⟨a, _, rfl⟩ := he2
    rfl
  · intro e he
    have he2 := List.take_subset 10 _ he
    rw [get_excluded_articles, List.mem_map] at he2
    obtain ⟨a, ha, rfl⟩ := he2
    rw [List.mem_filter] at ha
    exact ⟨a, ha.1, by simpa using ha.2, rfl⟩
  · intro h10 a ha hfalse
    have hlen : (get_excluded_articles sr).length ≤ 10 := by
      rw [get_excluded_articles, List.length_map]
      exact h10
    rw [List.take_of_length_le hlen, get_excluded_articles, List.mem_map]
    exact ⟨a, List.mem_filter.mpr ⟨ha, by simp [hfalse]⟩, rfl⟩

def mC10 : PubMedArticleMetadata :=
  { pmid := "10", title := "Accessible trial", abstract := none,
    authors := [], journal := some "J", pub_year := none, doi := none,
    pmcid := some "PMC10" }

def oC10 : GenOracles :=
  { fdaExtract := fun _ _ => .ok none, articleExtract := fun _ _ => .ok none }

def srC10 : SearchResults :=
  { fda_label := none, pubmed_articles := [mC10], pubmed_full_text := [],
    clinical_trials := [], pubmed_total_found := 1,
    pubmed_full_text_available := 0, pubmed_abstract_only := 1,
    clinical_trials_found := 0 }

def intentC10 : UserIntent :=
  { original_query := "efficacy claims", drug :=
      { brand_name := some "DrugX", generic_name := none, synonyms := [],
        search_terms := [] },
    claim_type := "efficacy", indication := none, population := none,
    output_requirements :=
      { claim_count := 2, include_substantiation := true,
        format_type := "MLR-ready", include_safety := false,
        include_dosing := false } }

/-- C10 counterexample: `mC10` is a metadata-only summary of the
aggregated set (a search hit whose full text was not retrieved — the
full-text list is empty), yet the excluded-articles side list of the
output is empty, because the code keys the list on a missing PMC
identifier and `mC10` has one. -/
theorem excluded_side_list_cx :
    ((generate_claims oC10 srC10 [] [] intentC10 0
        (get_excluded_articles srC10)).map
      (fun out => out.additional_context.articles_without_full_text))
        = Except.ok []
    ∧ srC10.pubmed_articles = [mC10] ∧ srC10.pubmed_full_text = [] :=
  ⟨rfl, rfl, rfl⟩

def mC10b : PubMedArticleMetadata :=
  { pmid := "11", title := "Paywalled trial", abstract := none,
    authors := [], journal := some "J", pub_year := none, doi := none,
    pmcid := none }

def srC10b : SearchResults :=
  { fda_label := none, pubmed_articles := [mC10b], pubmed_full_text := [],
    clinical_trials := [], pubmed_total_found := 1,
    pubmed_full_text_available := 0, pubmed_abstract_only := 1,
    clinical_trials_found := 0 }

def outC10b : ClaimsOutput :=
  match generate_claims oC10 srC10b [] [] intentC10 0
      (get_excluded_articles srC10b) with
  | .ok out => out
  | .error _ => default

theorem excluded_side_list_spec_witness :
    excludedEntryOf mC10b ∈
      outC10b.additional_context.articles_without_full_text :=
  (excluded_side_list_spec oC10 srC10b [] [] intentC10 0 outC10b
    rfl).2.2.2.2 (by decide) mC10b (by decide) (by decide)

/-! ### C7 -/

theorem foldl_issues_shape {α : Type} (step : List String → α → List String)
    (g : α → List String)
    (hstep : ∀ acc x, step acc x = acc ++ g x) :
    ∀ (l : List α) (acc : List String),
      (l.foldl step acc = [] ↔ acc = [] ∧ ∀ x ∈ l, g x = []) := by
  intro l
  induction l with
  | nil => intro acc; simp
  | cons x xs ih =>
    intro acc
    rw [List.foldl_cons, hstep, ih]
    constructor
    · rintro ⟨hax, hall⟩
      rw [List.append_eq_nil] at hax
      exact ⟨hax.1, fun y hy => by
        rcases hy with _ | hy
        · exact hax.2
        · exact hall y (by assumption)⟩
    · rintro ⟨ha, hall⟩
      refine ⟨?_, fun y hy => hall y (List.mem_cons_of_mem x hy)⟩
      rw [List.append_eq_nil]
      exact ⟨ha, hall x (List.mem_cons_self x xs)⟩

theorem contains_implies_fuzzy (n : String) (l : List String)
    (h : l.contains n = true) : fuzzy_number_match n l = true := by
  have hmem : n ∈ l := by simpa using h
  rw [fuzzy_number_match, List.any_eq_true]
  exact ⟨n, hmem, by simp⟩

/-- The token-matching relation as the claim states it, for comparison
with the source's `fuzzy_number_match`: equality after stripping spaces
and commas, or substring containment in either direction — with no
case folding.  (`fuzzy_number_match`, from validators.py lines 82-96,
additionally lower-cases both tokens.) -/
def strip_spaces_commas (s : String) : String :=
  String.mk (s.data.filter (fun c => !(c == ' ' || c == ',')))

def spec_number_match (number : String) (number_list : List String) : Bool :=
  number_list.any (fun source_num =>
    let nc := strip_spaces_commas number
    let sc := strip_spaces_commas source_num
    nc == sc || occursIn nc.data sc.data || occursIn sc.data nc.data)

/-- C7 counterexample: the check accepts the claim text
"enrolled N=5 patients" against the source "a cohort of n=500 subjects"
— its token "N=5" matches "n=500" only because the code's normalization
lower-cases — yet under the claim's stated
strip-spaces-and-commas-only relation "N=5" matches no source token.
So "valid exactly when every token matches under equality after
stripping spaces and commas or containment" is false of the program. -/
theorem numerical_fidelity_cx :
    validate_numerical_accuracy "enrolled N=5 patients" ""
        "a cohort of n=500 subjects" [] = (true, [])
  ∧ "N=5" ∈ extract_numbers ("enrolled N=5 patients" ++ " " ++ "")
  ∧ spec_number_match "N=5"
      (extract_numbers "a cohort of n=500 subjects") = false := by
  decide

/-- C7 (amended): the numeric-fidelity check returns valid exactly when
every number-like token extracted from claim text plus substantiation,
and every non-null value of the numerical-data map, matches some token
extracted from the source under the code's cleaning normalization —
strip spaces and commas AND lower-case — with equality or substring
containment in either direction; "risk reduction of 89%" passes against
"...an 89% relative risk reduction...", while "risk reduction of 92%"
fails and reports the unmatched token. -/
theorem numerical_fidelity_characterization :
    (∀ (claim_text substantiation source_text : String)
        (numerical_data : List (String × Option String)),
      (validate_numerical_accuracy claim_text substantiation source_text
          numerical_data).1 = true ↔
        ((∀ n ∈ extract_numbers (claim_text ++ " " ++ substantiation),
            fuzzy_number_match n (extract_numbers source_text) = true)
         ∧ (∀ fv ∈ numerical_data, ∀ v, fv.2 = some v →
              fuzzy_number_match v (extract_numbers source_text) = true)))
  ∧ (validate_numerical_accuracy "risk reduction of 89%" ""
       "...an 89% relative risk reduction..." []).1 = true
  ∧ (validate_numerical_accuracy "risk reduction of 92%" ""
       "...an 89% relative risk reduction..." [])
      = (false, ["Number \x2792\x27 in claim not found in source text"]) := by
  refine ⟨?_, by decide, by decide⟩
  intro ct sub src nd
  unfold validate_numerical_accuracy
  simp only [List.isEmpty_iff]
  rw [foldl_issues_shape _
    (fun fv => match fv.2 with
      | none => []
      | some v =>
        if fuzzy_number_match v (extract_numbers src) then []
        else [fieldIssue fv.1 v])
    (by
      intro acc fv
      rcases fv with ⟨f, v⟩
      rcases v with _ | v
      · simp
      · by_cases hf : fuzzy_number_match v (extract_numbers src) = true <;>
          simp [hf])]
  rw [foldl_issues_shape _
    (fun n =>
      if (extract_numbers src).contains n then []
      else if fuzzy_number_match n (extract_numbers src) then []
      else [numIssue n])
    (by
      intro acc n
      by_cases hm : n ∈ extract_numbers src <;>
        by_cases hf : fuzzy_number_match n (extract_numbers src) = true <;>
        simp [hm, hf])]
  have e1 : ∀ n : String,
      ((if (extract_numbers src).contains n then []
        else if fuzzy_number_match n (extract_numbers src) then []
        else [numIssue n]) = ([] : List String))
        ↔ fuzzy_number_match n (extract_numbers src) = true := by
    intro n
    by_cases hm : n ∈ extract_numbers src
    · have hc : (extract_numbers src).contains n = true := by simpa using hm
      simp [hm, contains_implies_fuzzy n _ hc]
    · by_cases hf : fuzzy_number_match n (extract_numbers src) = true <;>
        simp [hm, hf]
  have e2 : ∀ fv : String × Option String,
      ((match fv.2 with
        | none => []
        | some v =>
          if fuzzy_number_match v (extract_numbers src) then []
          else [fieldIssue fv.1 v]) = ([] : List String))
        ↔ (∀ v, fv.2 = some v →
            fuzzy_number_match v (extract_numbers src) = true) := by
    rintro ⟨f, v⟩
    rcases v with _ | v
    · simp
    · by_cases hf : fuzzy_number_match v (extract_numbers src) = true <;>
        simp [hf]
  constructor
  · rintro ⟨⟨_, hnums⟩, hflds⟩
    exact ⟨fun n hn => (e1 n).mp (hnums n hn),
      fun fv hfv => (e2 fv).mp (hflds fv hfv)⟩
  · rintro ⟨hnums, hflds⟩
    exact ⟨⟨rfl, fun n hn => (e1 n).mpr (hnums n hn)⟩,
      fun fv hfv => (e2 fv).mpr (hflds fv hfv)⟩

theorem numerical_fidelity_characterization_witness :
    (validate_numerical_accuracy "risk reduction of 89%" ""
      "...an 89% relative risk reduction..." []).1 = true :=
  (numerical_fidelity_characterization.1 "risk reduction of 89%" ""
    "...an 89% relative risk reduction..." []).mpr (by decide)

end Retrieval
